import Mathlib

/-!
Shallow embedding of the SBCL runtime's gencgc page-table support layer
(`src/runtime/gencgc-private.h`, `src/runtime/alloc.c`) with proofs about
its scan-start codec, contiguous-block boundary predicates, allocators
and allocation profiler.

Machine integers are modelled as `Nat`, with explicit reduction modulo
`2 ^ 64` where C unsigned overflow matters.  Platform constants are those
of a 64-bit build with the condensed page table (the only configuration
in which the condensed scan-start codec is compiled): 8-byte words,
32 KiB GC pages, and cards coinciding with pages.
-/

namespace SBCL

/-- `WORD_SHIFT` for a 64-bit lisp word (8 bytes). -/
def WORD_SHIFT : Nat := 3

/-- `N_WORD_BYTES`: bytes per machine word. -/
def N_WORD_BYTES : Nat := 8

/-- `GENCGC_CARD_SHIFT`: log2 of the card size; cards coincide with GC pages
in this configuration, so this is also the page-size log. -/
def GENCGC_CARD_SHIFT : Nat := 15

/-- `GENCGC_PAGE_BYTES`: bytes per GC page. -/
def GENCGC_PAGE_BYTES : Nat := 2 ^ GENCGC_CARD_SHIFT

/-- `GENCGC_PAGE_WORDS`: words per GC page (the page capacity). -/
def GENCGC_PAGE_WORDS : Nat := GENCGC_PAGE_BYTES / N_WORD_BYTES

/-- `SCAN_START_OFS_MAX = UINT_MAX`: the 32-bit `scan_start_offset_` field's
maximum (and sentinel) value. -/
def SCAN_START_OFS_MAX : Nat := 2 ^ 32 - 1

/-- `LOWTAG_MASK` on a 64-bit platform: the low 4 address bits. -/
def LOWTAG_MASK : Nat := 15

/-- Wrap-around modulus of 64-bit unsigned (pointer) arithmetic. -/
def UWORD_MOD : Nat := 2 ^ 64

/-- `set_page_scan_start_offset` (gencgc-private.h, condensed variant).
Returns the 32-bit value stored into `page_table[index].scan_start_offset_`.
`IS_ALIGNED(offset, GENCGC_PAGE_BYTES)` is `offset % GENCGC_PAGE_BYTES = 0`
(the alignment is a power of two).  `none` models the fatal
`gc_assert(lsb == 1)` firing when an over-large offset is not page-aligned. -/
def set_page_scan_start_offset (offset : Nat) : Option Nat :=
  let lsb : Nat := if offset ≠ 0 ∧ offset % GENCGC_PAGE_BYTES = 0 then 1 else 0
  let scaled : Nat :=
    (offset >>> (if lsb = 1 then GENCGC_CARD_SHIFT - 1 else WORD_SHIFT)) ||| lsb
  if scaled > SCAN_START_OFS_MAX then
    if lsb = 1 then some SCAN_START_OFS_MAX else none
  else
    some scaled

/-- The do/while loop body of `scan_start_offset_iterated`, with explicit fuel.
`tbl` is the per-page stored `scan_start_offset_` field.  Each iteration reads
`tbl (index - tot)` (C: `page_table[index - tot_offset_in_pages]`), adds
`offset >> 1` pages, and continues while the value read equals the sentinel.
In C a lookback past page 0 reads out of the page table; running out of fuel
(`none`) models that the loop left the table. -/
def scan_start_iter (tbl : Nat → Nat) (index : Nat) : Nat → Nat → Option Nat
  | 0, _ => none
  | fuel + 1, tot =>
    let offset := tbl (index - tot)
    let tot2 := tot + (offset >>> 1)
    if offset = SCAN_START_OFS_MAX then scan_start_iter tbl index fuel tot2
    else some tot2

/-- `scan_start_offset_iterated` (gencgc-private.h): total page distance found
by the backward walk, converted to bytes by `<< GENCGC_CARD_SHIFT`.  Fuel
`index + 1` suffices because every sentinel step walks back at least one page,
so a walk still inside the table takes at most `index + 1` steps. -/
def scan_start_offset_iterated (tbl : Nat → Nat) (index : Nat) : Option Nat :=
  (scan_start_iter tbl index (index + 1) 0).map (fun tot => tot <<< GENCGC_CARD_SHIFT)

/-- `page_scan_start_offset` (gencgc-private.h, condensed variant).  For a
non-sentinel stored value `v`, the C code computes `(v & ~1) << shift` where
the shift depends on the low "scale" bit `v & 1`; on the 32-bit field,
`v & ~1 = 2 * (v / 2)` and `v & 1 = v % 2`. -/
def page_scan_start_offset (tbl : Nat → Nat) (index : Nat) : Option Nat :=
  if tbl index ≠ SCAN_START_OFS_MAX then
    some ((2 * (tbl index / 2)) <<<
      (if tbl index % 2 = 1 then GENCGC_CARD_SHIFT - 1 else WORD_SHIFT))
  else
    scan_start_offset_iterated tbl index

/-- Store a scan-start offset for a page and read it back through the
accessor: the stored field of the page is the encoder's output (decoding a
non-sentinel value consults no other page, so a constant table suffices). -/
def scan_start_roundtrip (offset : Nat) : Option Nat :=
  match set_page_scan_start_offset offset with
  | none => none
  | some stored => page_scan_start_offset (fun _ => stored) 0

/-- Bitwise-or of an even number with 1 sets the (vacant) low bit. -/
theorem two_mul_lor_one (k : Nat) : 2 * k ||| 1 = 2 * k + 1 := by
  have h := Nat.lor_bit false k true 0
  simpa [Nat.bit] using h

theorem SCAN_START_OFS_MAX_eq : SCAN_START_OFS_MAX = 4294967295 := rfl

theorem GENCGC_PAGE_BYTES_eq : GENCGC_PAGE_BYTES = 32768 := rfl

theorem GENCGC_PAGE_WORDS_eq : GENCGC_PAGE_WORDS = 4096 := rfl

/-- Case-split characterization of the encoder: the `lsb` branch resolved. -/
theorem set_page_scan_start_offset_eq (o : Nat) :
    set_page_scan_start_offset o =
      if o ≠ 0 ∧ o % GENCGC_PAGE_BYTES = 0 then
        if (o >>> (GENCGC_CARD_SHIFT - 1)) ||| 1 > SCAN_START_OFS_MAX
        then some SCAN_START_OFS_MAX
        else some ((o >>> (GENCGC_CARD_SHIFT - 1)) ||| 1)
      else
        if o >>> WORD_SHIFT > SCAN_START_OFS_MAX then none
        else some (o >>> WORD_SHIFT) := by
  by_cases h : o ≠ 0 ∧ o % GENCGC_PAGE_BYTES = 0
  · simp [set_page_scan_start_offset, h]
  · simp [set_page_scan_start_offset, h]

/-- Encoding a nonzero page-aligned offset that scales below the sentinel. -/
theorem set_scan_start_of_page_aligned (o : Nat) (h0 : o ≠ 0)
    (hpa : o % GENCGC_PAGE_BYTES = 0)
    (hlt : 2 * (o / 32768) + 1 < SCAN_START_OFS_MAX) :
    set_page_scan_start_offset o = some (2 * (o / 32768) + 1) := by
  have hpa' : o % 32768 = 0 := by
    simpa [GENCGC_PAGE_BYTES_eq] using hpa
  have hs14 : o >>> (GENCGC_CARD_SHIFT - 1) = 2 * (o / 32768) := by
    rw [Nat.shiftRight_eq_div_pow]
    show o / 2 ^ 14 = 2 * (o / 32768)
    omega
  rw [set_page_scan_start_offset_eq, if_pos ⟨h0, hpa⟩, hs14, two_mul_lor_one,
    if_neg (by omega)]

/-- Encoding a nonzero non-page-aligned cons-aligned offset below the span. -/
theorem set_scan_start_of_cons_aligned (o : Nat)
    (h0 : ¬(o ≠ 0 ∧ o % GENCGC_PAGE_BYTES = 0))
    (hlt : o / 8 < SCAN_START_OFS_MAX) :
    set_page_scan_start_offset o = some (o / 8) := by
  have hs3 : o >>> WORD_SHIFT = o / 8 := by
    rw [Nat.shiftRight_eq_div_pow]; rfl
  rw [set_page_scan_start_offset_eq, if_neg h0, hs3, if_neg (by omega)]

/-- Decoding a non-sentinel stored value reads only the page's own field. -/
theorem page_scan_start_offset_of_ne_max (tbl : Nat → Nat) (index : Nat)
    (hs : tbl index ≠ SCAN_START_OFS_MAX) :
    page_scan_start_offset tbl index =
      some ((2 * (tbl index / 2)) <<<
        (if tbl index % 2 = 1 then GENCGC_CARD_SHIFT - 1 else WORD_SHIFT)) := by
  simp [page_scan_start_offset, hs]

/-- Reading back a freshly stored non-sentinel field value. -/
theorem roundtrip_of_stored (o s : Nat)
    (hset : set_page_scan_start_offset o = some s) (hs : s ≠ SCAN_START_OFS_MAX) :
    scan_start_roundtrip o =
      some ((2 * (s / 2)) <<<
        (if s % 2 = 1 then GENCGC_CARD_SHIFT - 1 else WORD_SHIFT)) := by
  rw [scan_start_roundtrip, hset]
  exact page_scan_start_offset_of_ne_max (fun _ => s) 0 hs

/-- C1, counterexample to the claim as stated: byte offset 8 is a multiple of
the word size and far below the representable span, yet storing it and reading
it back yields 0 instead of 8 — the scaled value `8 >> WORD_SHIFT = 1` is odd,
so the decoder misreads its low bit as the page-scale tag. -/
theorem C1_word_multiple_not_roundtrip :
    8 % 2 ^ WORD_SHIFT = 0 ∧ 8 >>> WORD_SHIFT < SCAN_START_OFS_MAX ∧
    scan_start_roundtrip 8 = some 0 ∧ some 0 ≠ some (8 : Nat) := by decide

/-- C1 (amended): for every byte offset that is a multiple of twice the word
size (cons alignment — the alignment the encoder actually assumes, per the
`gc_assert` comment about "cons-aligned" offsets) and whose scaled value stays
below the sentinel, decoding the scan-start field after encoding it returns
the offset exactly. -/
theorem C1_roundtrip_cons_aligned (o : Nat)
    (halign : o % (2 * 2 ^ WORD_SHIFT) = 0)
    (hspan : o >>> WORD_SHIFT < SCAN_START_OFS_MAX) :
    scan_start_roundtrip o = some o := by
  have h16 : o % 16 = 0 := by
    simpa [WORD_SHIFT] using halign
  have h8 : o / 8 < 4294967295 := by
    rw [Nat.shiftRight_eq_div_pow] at hspan
    simpa [WORD_SHIFT, SCAN_START_OFS_MAX] using hspan
  by_cases h0 : o = 0
  · subst h0; rfl
  by_cases hpa : o % GENCGC_PAGE_BYTES = 0
  · -- page-aligned: scale bit 1, shifts by GENCGC_CARD_SHIFT - 1
    have hpa' : o % 32768 = 0 := by
      simpa [GENCGC_PAGE_BYTES_eq] using hpa
    have hlt : 2 * (o / 32768) + 1 < SCAN_START_OFS_MAX := by
      rw [SCAN_START_OFS_MAX_eq]; omega
    have hset := set_scan_start_of_page_aligned o h0 hpa hlt
    rw [roundtrip_of_stored o _ hset (Nat.ne_of_lt hlt),
      if_pos (by omega : (2 * (o / 32768) + 1) % 2 = 1)]
    show some (2 * ((2 * (o / 32768) + 1) / 2) <<< 14) = some o
    rw [Nat.shiftLeft_eq]
    congr 1
    show 2 * ((2 * (o / 32768) + 1) / 2 * 2 ^ 14) = o
    omega
  · -- not page-aligned: scale bit 0, shifts by WORD_SHIFT
    have hlt : o / 8 < SCAN_START_OFS_MAX := by rw [SCAN_START_OFS_MAX_eq]; omega
    have hset := set_scan_start_of_cons_aligned o (by simp [h0, hpa]) hlt
    rw [roundtrip_of_stored o _ hset (Nat.ne_of_lt hlt),
      if_neg (by omega : ¬o / 8 % 2 = 1)]
    show some (2 * (o / 8 / 2) <<< 3) = some o
    rw [Nat.shiftLeft_eq]
    congr 1
    show 2 * (o / 8 / 2 * 2 ^ 3) = o
    omega

/-- C1 witness: the amended round-trip theorem applied to the concrete
cons-aligned offset 48. -/
theorem C1_roundtrip_cons_aligned_witness : scan_start_roundtrip 48 = some 48 :=
  C1_roundtrip_cons_aligned 48 (by decide) (by decide)

/-- The backward walk exactly as the spec words it: read the stored value at
the current page, consume `stored >> 1` pages, and if the stored value is the
sentinel continue at the page that many pages back, summing the per-step page
distances.  (Defined from the spec sentence for comparison against the
source-derived `scan_start_iter`.) -/
def scan_start_walk (tbl : Nat → Nat) : Nat → Nat → Option Nat
  | 0, _ => none
  | fuel + 1, p =>
    let v := tbl p
    if v = SCAN_START_OFS_MAX then
      (scan_start_walk tbl fuel (p - (v >>> 1))).map (fun rest => (v >>> 1) + rest)
    else
      some (v >>> 1)

/-- The source loop with accumulator `tot` computes the spec walk started at
`index - tot`, shifted by `tot`. -/
theorem scan_start_iter_eq_walk (tbl : Nat → Nat) (index : Nat) :
    ∀ (fuel tot : Nat),
      scan_start_iter tbl index fuel tot =
        (scan_start_walk tbl fuel (index - tot)).map (fun d => tot + d)
  | 0, _ => rfl
  | fuel + 1, tot => by
    rw [scan_start_iter, scan_start_walk]
    by_cases h : tbl (index - tot) = SCAN_START_OFS_MAX
    · rw [if_pos h, if_pos h, scan_start_iter_eq_walk tbl index fuel,
        Nat.sub_sub, Option.map_map]
      congr 1
      funext d
      simp only [Function.comp_apply]
      exact Nat.add_assoc _ _ _
    · rw [if_neg h, if_neg h]
      rfl

/-- C2: for every page whose stored scan-start field is the sentinel, the
accessor reconstructs the offset by the iterative backward walk the spec
describes — move back `stored >> 1` pages per step while the stored value at
each visited page equals the sentinel, sum the page distances, and shift the
sum left by the page-size log to yield bytes. -/
theorem C2_sentinel_decodes_by_walk (tbl : Nat → Nat) (index : Nat)
    (h : tbl index = SCAN_START_OFS_MAX) :
    page_scan_start_offset tbl index =
      (scan_start_walk tbl (index + 1) index).map
        (fun pages => pages <<< GENCGC_CARD_SHIFT) := by
  rw [page_scan_start_offset, if_neg (by simpa using h), scan_start_offset_iterated,
    scan_start_iter_eq_walk tbl index (index + 1) 0, Nat.sub_zero, Option.map_map]
  congr 1
  funext d
  simp only [Function.comp_apply, Nat.zero_add]

/-- C2 witness: a concrete table whose page 3 stores the sentinel; the walk
steps back `SCAN_START_OFS_MAX >> 1` pages (saturating at page 0, whose stored
value 6 ends the walk) and both sides agree. -/
theorem C2_sentinel_decodes_by_walk_witness :
    page_scan_start_offset (fun p => if p = 3 then SCAN_START_OFS_MAX else 6) 3 =
      (scan_start_walk (fun p => if p = 3 then SCAN_START_OFS_MAX else 6) 4 3).map
        (fun pages => pages <<< GENCGC_CARD_SHIFT) :=
  C2_sentinel_decodes_by_walk (fun p => if p = 3 then SCAN_START_OFS_MAX else 6) 3
    (by decide)

/-! ## Page table and the contiguous-block boundary oracle -/

/-- The per-page metadata of the gencgc page table that the boundary oracle
consults: the raw (condensed) `scan_start_offset_` field, `words_used_`, and
the generation, each as a function of the page index.  The C code notes there
is always a next page in the page table, so total functions model it. -/
structure PageTable where
  scan_start_offset_ : Nat → Nat
  words_used_ : Nat → Nat
  gen : Nat → Nat

/-- `page_words_used` (gencgc-private.h macro). -/
def page_words_used (pt : PageTable) (index : Nat) : Nat :=
  pt.words_used_ index

/-- `page_starts_contiguous_block_p`: the raw stored field is 0
("Don't use the preprocessor macro: 0 means 0"). -/
def page_starts_contiguous_block_p (pt : PageTable) (page_index : Nat) : Bool :=
  pt.scan_start_offset_ page_index == 0

/-- `page_ends_contiguous_block_p` (non-debug build): the page is under-full
or the next page starts its own block; the generation argument is unused. -/
def page_ends_contiguous_block_p (pt : PageTable) (page_index : Nat)
    (_gen : Nat) : Bool :=
  decide (page_words_used pt page_index < GENCGC_PAGE_WORDS) ||
    page_starts_contiguous_block_p pt (page_index + 1)

/-- `contiguous_block_final_page`: scan forward from `first` while the page
does not end a block, using `page_table[first].gen` as the generation
argument.  The C `while` loop has no bound of its own; fuel exhaustion
(`none`) models a table in which no later page ever ends the block. -/
def contiguous_block_final_page_from (pt : PageTable) (g : Nat) :
    Nat → Nat → Option Nat
  | 0, _ => none
  | fuel + 1, last =>
    if page_ends_contiguous_block_p pt last g then some last
    else contiguous_block_final_page_from pt g fuel (last + 1)

/-- `contiguous_block_final_page` entry point. -/
def contiguous_block_final_page (pt : PageTable) (first fuel : Nat) : Option Nat :=
  contiguous_block_final_page_from pt (pt.gen first) fuel first

/-- C4: `page_ends_contiguous_block_p page gen` holds exactly when the page is
not fully used (`words_used < page capacity`) or the next page starts its own
contiguous block. -/
theorem C4_ends_block_iff (pt : PageTable) (page_index g : Nat) :
    page_ends_contiguous_block_p pt page_index g = true ↔
      (page_words_used pt page_index < GENCGC_PAGE_WORDS ∨
        page_starts_contiguous_block_p pt (page_index + 1) = true) := by
  simp [page_ends_contiguous_block_p]

/-- C10: in a non-debug build the result of `page_ends_contiguous_block_p` is
independent of the generation argument — it reads only `words_used` and the
next page's scan-start field. -/
theorem C10_ends_block_gen_independent (pt : PageTable) (page_index g1 g2 : Nat) :
    page_ends_contiguous_block_p pt page_index g1 =
      page_ends_contiguous_block_p pt page_index g2 := rfl

/-- The accumulator of the iterative decoder never decreases. -/
theorem scan_start_iter_le (tbl : Nat → Nat) (index : Nat) :
    ∀ (fuel tot r : Nat), scan_start_iter tbl index fuel tot = some r → tot ≤ r
  | 0, tot, r => by intro h; exact absurd h (by simp [scan_start_iter])
  | fuel + 1, tot, r => by
    intro h
    rw [scan_start_iter] at h
    by_cases hc : tbl (index - tot) = SCAN_START_OFS_MAX
    · rw [if_pos hc] at h
      have := scan_start_iter_le tbl index fuel _ r h
      omega
    · rw [if_neg hc] at h
      have := Option.some.inj h
      omega

/-- A page storing the sentinel never decodes to offset 0: the walk's first
step already accumulates `SCAN_START_OFS_MAX >> 1` pages. -/
theorem iterated_pos_of_sentinel (tbl : Nat → Nat) (index r : Nat)
    (h : tbl index = SCAN_START_OFS_MAX)
    (hr : scan_start_offset_iterated tbl index = some r) : 0 < r := by
  rw [scan_start_offset_iterated] at hr
  obtain ⟨t, ht, hrt⟩ := Option.map_eq_some'.mp hr
  rw [scan_start_iter, Nat.sub_zero, h, if_pos rfl] at ht
  have hle := scan_start_iter_le tbl index _ _ _ ht
  have hpos : 0 < SCAN_START_OFS_MAX >>> 1 := by decide
  rw [← hrt, Nat.shiftLeft_eq]
  have : 0 < t := by omega
  positivity

/-- Decoding a page whose stored field is 0 yields byte offset 0. -/
theorem page_scan_start_offset_of_zero (tbl : Nat → Nat) (p : Nat)
    (h : tbl p = 0) : page_scan_start_offset tbl p = some 0 := by
  rw [page_scan_start_offset_of_ne_max tbl p (by rw [h]; decide), h]
  decide

/-- The encoder never stores the value 1 for a cons-aligned offset: the
page-aligned branch stores an odd value at least 3, the word-scaled branch an
even value. -/
theorem set_scan_start_ne_one (o : Nat) (h16 : o % 16 = 0) :
    set_page_scan_start_offset o ≠ some 1 := by
  rw [set_page_scan_start_offset_eq]
  by_cases h : o ≠ 0 ∧ o % GENCGC_PAGE_BYTES = 0
  · obtain ⟨h0, hpa⟩ := h
    have hpa' : o % 32768 = 0 := by simpa [GENCGC_PAGE_BYTES_eq] using hpa
    have h14 : o >>> (GENCGC_CARD_SHIFT - 1) = 2 * (o / 32768) := by
      rw [Nat.shiftRight_eq_div_pow]
      show o / 2 ^ 14 = 2 * (o / 32768)
      omega
    rw [if_pos ⟨h0, hpa⟩, h14, two_mul_lor_one]
    split
    · simp [SCAN_START_OFS_MAX_eq]
    · simp only [ne_eq, Option.some.injEq]
      omega
  · have h3 : o >>> WORD_SHIFT = o / 8 := by
      rw [Nat.shiftRight_eq_div_pow]; rfl
    rw [if_neg h, h3]
    split
    · simp
    · simp only [ne_eq, Option.some.injEq]
      omega

/-- A stored scan-start field value reachable through the encoder from a
cons-aligned byte offset (every write of the field goes through
`set_page_scan_start_offset`). -/
def valid_scan_field (v : Nat) : Prop :=
  ∃ o, o % (2 * 2 ^ WORD_SHIFT) = 0 ∧ set_page_scan_start_offset o = some v

/-- C5: for a page whose stored field is any value the encoder can produce,
`page_starts_contiguous_block_p` holds exactly when the page's decoded
scan-start offset is zero. -/
theorem C5_starts_block_iff_zero_offset (pt : PageTable) (p : Nat)
    (hv : valid_scan_field (pt.scan_start_offset_ p)) :
    page_starts_contiguous_block_p pt p = true ↔
      page_scan_start_offset pt.scan_start_offset_ p = some 0 := by
  constructor
  · intro h
    exact page_scan_start_offset_of_zero _ _
      (by simpa [page_starts_contiguous_block_p] using h)
  · intro h
    by_cases hmax : pt.scan_start_offset_ p = SCAN_START_OFS_MAX
    · rw [page_scan_start_offset, if_neg (by simpa using hmax)] at h
      exact absurd (iterated_pos_of_sentinel _ _ _ hmax h) (by omega)
    · rw [page_scan_start_offset_of_ne_max _ _ hmax] at h
      have h2 : 2 * (pt.scan_start_offset_ p / 2) = 0 := by
        have hinj := Option.some.inj h
        rw [Nat.shiftLeft_eq] at hinj
        rcases Nat.mul_eq_zero.mp hinj with h' | h'
        · exact h'
        · exact absurd h' (Nat.pos_iff_ne_zero.mp (pow_pos (by omega) _))
      have hle : pt.scan_start_offset_ p ≤ 1 := by omega
      obtain ⟨o, h16, hset⟩ := hv
      have hne1 : pt.scan_start_offset_ p ≠ 1 := by
        intro h1
        exact set_scan_start_ne_one o (by simpa using h16) (h1 ▸ hset)
      simp [page_starts_contiguous_block_p]
      omega

/-- C5 witness: a table whose page 0 stores field value 0 (encoded from
offset 0). -/
theorem C5_starts_block_iff_zero_offset_witness :
    page_starts_contiguous_block_p
        { scan_start_offset_ := fun _ => 0, words_used_ := fun _ => 0,
          gen := fun _ => 0 } 0 = true ↔
      page_scan_start_offset (fun _ => 0) 0 = some 0 :=
  C5_starts_block_iff_zero_offset
    { scan_start_offset_ := fun _ => 0, words_used_ := fun _ => 0,
      gen := fun _ => 0 } 0 ⟨0, by decide, by decide⟩

/-- The spec's 3-page scenario: pages 0 and 1 are full, page 2 holds 10
words; the scan-start fields store 0 for page 0 and the encodings of one and
two page-aligned pages back (field values 3 and 5) for pages 1 and 2; page 3
is free and starts its own block. -/
def scenario_table : PageTable where
  scan_start_offset_ := fun p =>
    if p = 0 then 0 else if p = 1 then 3 else if p = 2 then 5 else 0
  words_used_ := fun p =>
    if p = 0 ∨ p = 1 then GENCGC_PAGE_WORDS else if p = 2 then 10 else 0
  gen := fun _ => 0

/-- The forward scan returns the least page at or after `first` that ends a
block, and no earlier page in the scanned range ends one. -/
theorem contiguous_block_final_page_from_spec (pt : PageTable) (g : Nat) :
    ∀ (fuel first q : Nat),
      contiguous_block_final_page_from pt g fuel first = some q →
      first ≤ q ∧ page_ends_contiguous_block_p pt q g = true ∧
        ∀ r, first ≤ r → r < q → page_ends_contiguous_block_p pt r g = false
  | 0, first, q => by
    intro h
    exact absurd h (by simp [contiguous_block_final_page_from])
  | fuel + 1, first, q => by
    intro h
    rw [contiguous_block_final_page_from] at h
    by_cases hc : page_ends_contiguous_block_p pt first g = true
    · rw [if_pos hc] at h
      obtain rfl := Option.some.inj h
      exact ⟨Nat.le_refl _, hc, fun r h1 h2 => absurd (Nat.lt_of_le_of_lt h1 h2)
        (Nat.lt_irrefl _)⟩
    · rw [if_neg hc] at h
      obtain ⟨h1, h2, h3⟩ := contiguous_block_final_page_from_spec pt g fuel (first + 1) q h
      refine ⟨by omega, h2, fun r hr1 hr2 => ?_⟩
      by_cases hr : r = first
      · subst hr
        exact Bool.not_eq_true _ ▸ (by simpa using hc)
      · exact h3 r (by omega) hr2

/-- C6: in the 3-page scenario, page 0 starts the block, pages 1 and 2 do
not, only page 2 ends it, and `contiguous_block_final_page 0 = 2`; in
general, a result `q` of `contiguous_block_final_page first` is at least
`first`, ends a block, and no page from `first` up to (excluding) `q` ends
one. -/
theorem C6_scenario_and_final_page :
    (page_starts_contiguous_block_p scenario_table 0 = true ∧
     page_starts_contiguous_block_p scenario_table 1 = false ∧
     page_starts_contiguous_block_p scenario_table 2 = false ∧
     page_ends_contiguous_block_p scenario_table 0 0 = false ∧
     page_ends_contiguous_block_p scenario_table 1 0 = false ∧
     page_ends_contiguous_block_p scenario_table 2 0 = true ∧
     contiguous_block_final_page scenario_table 0 8 = some 2) ∧
    ∀ (pt : PageTable) (first fuel q : Nat),
      contiguous_block_final_page pt first fuel = some q →
      first ≤ q ∧ page_ends_contiguous_block_p pt q (pt.gen first) = true ∧
        ∀ r, first ≤ r → r < q →
          page_ends_contiguous_block_p pt r (pt.gen first) = false :=
  ⟨by decide, fun pt first fuel q h =>
    contiguous_block_final_page_from_spec pt (pt.gen first) fuel first q h⟩

/-- C6 witness: the general final-page characterization instantiated on the
scenario table, where the final page of the block starting at page 0 is 2. -/
theorem C6_scenario_and_final_page_witness :
    0 ≤ 2 ∧
      page_ends_contiguous_block_p scenario_table 2 (scenario_table.gen 0) = true ∧
      ∀ r, 0 ≤ r → r < 2 →
        page_ends_contiguous_block_p scenario_table r (scenario_table.gen 0) = false :=
  C6_scenario_and_final_page.2 scenario_table 0 8 2 (by decide)

/-! ## The lock-free static-space bump allocator -/

/-- Result of `atomic_bump_static_space_free_ptr`.  `fatalAssert` models the
`gc_assert((nbytes & LOWTAG_MASK) == 0)` failing, which calls `lose` and
aborts the process; `null` models `return 0` on exhaustion or wrap-around. -/
inductive BumpResult where
  | fatalAssert : BumpResult
  | null : BumpResult
  | ok : Nat → Nat → BumpResult
deriving DecidableEq

/-- `atomic_bump_static_space_free_ptr` (alloc.c) in the single-threaded
view: with no contention the compare-and-swap succeeds on the first attempt,
so the loop body runs once.  `staticSpaceEnd` is the platform constant
`STATIC_SPACE_END`; pointers are 64-bit unsigned, so the frontier advance
wraps modulo `2 ^ 64`, and a "bogus wrap-around" is `new < claimed_ptr`.
`ok claimed newFree` returns the previous frontier and records the advanced
frontier written by the CAS. -/
def atomic_bump_static_space_free_ptr
    (staticSpaceEnd free_ptr nbytes : Nat) : BumpResult :=
  if nbytes &&& LOWTAG_MASK ≠ 0 then .fatalAssert
  else
    let newp := (free_ptr + nbytes) % UWORD_MOD
    if newp > staticSpaceEnd ∨ newp < free_ptr then .null
    else .ok free_ptr newp

/-- C3, counterexample to the claim as stated: a byte count of 4 is not a
multiple of the word alignment, and a byte count of 8 is — but the allocator
asserts on *lowtag* (2-word) alignment, so 4 produces a fatal assertion
rather than the claimed empty result, and 8 also dies fatally instead of
claiming the bytes. -/
theorem C3_misaligned_is_fatal_not_null :
    (4 % 2 ^ WORD_SHIFT ≠ 0 ∧
      atomic_bump_static_space_free_ptr 1024 0 4 = BumpResult.fatalAssert ∧
      BumpResult.fatalAssert ≠ BumpResult.null) ∧
    (8 % 2 ^ WORD_SHIFT = 0 ∧
      atomic_bump_static_space_free_ptr 1024 0 8 = BumpResult.fatalAssert ∧
      BumpResult.fatalAssert ≠ BumpResult.ok 0 8) := by decide

/-- C3 (amended): byte counts that are not multiples of the lowtag alignment
(`LOWTAG_MASK + 1 = 16` bytes, i.e. two words) fail the fatal assertion; for
lowtag-aligned byte counts the allocator returns null when the advanced
frontier would pass the fixed region end or wrap around the address space,
and otherwise returns the previous frontier and advances it by exactly the
requested byte count. -/
theorem C3_bump_allocator_behavior (staticSpaceEnd free_ptr nbytes : Nat)
    (hfree : free_ptr ≤ staticSpaceEnd) (hend : staticSpaceEnd < UWORD_MOD)
    (hn : nbytes < UWORD_MOD) :
    (nbytes % 16 ≠ 0 →
      atomic_bump_static_space_free_ptr staticSpaceEnd free_ptr nbytes =
        BumpResult.fatalAssert) ∧
    (nbytes % 16 = 0 → free_ptr + nbytes ≤ staticSpaceEnd →
      atomic_bump_static_space_free_ptr staticSpaceEnd free_ptr nbytes =
        BumpResult.ok free_ptr (free_ptr + nbytes)) ∧
    (nbytes % 16 = 0 → staticSpaceEnd < free_ptr + nbytes →
      atomic_bump_static_space_free_ptr staticSpaceEnd free_ptr nbytes =
        BumpResult.null) := by
  have hmask : nbytes &&& LOWTAG_MASK = nbytes % 16 := by
    have := Nat.and_pow_two_sub_one_eq_mod nbytes 4
    simpa [LOWTAG_MASK] using this
  have hmod : UWORD_MOD = 18446744073709551616 := rfl
  refine ⟨fun ha => ?_, fun ha hfit => ?_, fun ha hover => ?_⟩
  · rw [atomic_bump_static_space_free_ptr, if_pos (by rw [hmask]; exact ha)]
  · rw [atomic_bump_static_space_free_ptr, if_neg (by rw [hmask]; omega)]
    have hsmall : (free_ptr + nbytes) % UWORD_MOD = free_ptr + nbytes :=
      Nat.mod_eq_of_lt (by omega)
    rw [if_neg (by rw [hsmall]; omega)]
    exact congrArg (BumpResult.ok free_ptr) hsmall
  · rw [atomic_bump_static_space_free_ptr, if_neg (by rw [hmask]; omega)]
    have hend' : staticSpaceEnd < 18446744073709551616 := hmod ▸ hend
    have hn' : nbytes < 18446744073709551616 := hmod ▸ hn
    by_cases hw : free_ptr + nbytes < UWORD_MOD
    · rw [if_pos (Or.inl (by rw [Nat.mod_eq_of_lt hw]; omega))]
    · have hw' : ¬free_ptr + nbytes < 18446744073709551616 := hmod ▸ hw
      rw [if_pos (Or.inr (by rw [hmod]; omega))]

/-- C3 witness: a 32-byte claim from frontier 96 in a region ending at 1024
succeeds and advances the frontier to 128. -/
theorem C3_bump_allocator_behavior_witness :
    atomic_bump_static_space_free_ptr 1024 96 32 = BumpResult.ok 96 128 :=
  (C3_bump_allocator_behavior 1024 96 32 (by decide) (by decide)
    (by decide)).2.1 (by decide) (by decide)

/-! ## Initialization done by the locked code-object allocator -/

/-- The initialization `alloc_code_object` (alloc.c) performs on the freshly
obtained `total_words`-word object, as a transformation of the object's word
array: word 0 (the header) is set to
`((uword_t)total_words << CODE_HEADER_SIZE_SHIFT) | CODE_HEADER_WIDETAG` in
64-bit arithmetic, word 1 (`boxed_size`) and word 2 (`debug_info`) are
cleared, and the trailing simple-fun-table count word at index
`total_words - 1` is zeroed last, so the trailing store wins if the indices
coincide.  `hdrShift` and `widetag` are the genesis constants
`CODE_HEADER_SIZE_SHIFT` and `CODE_HEADER_WIDETAG`. -/
def alloc_code_object_init (hdrShift widetag : Nat) (mem : Nat → Nat)
    (total_words : Nat) : Nat → Nat := fun i =>
  if i = total_words - 1 then 0
  else if i = 0 then ((total_words <<< hdrShift) ||| widetag) % UWORD_MOD
  else if i = 1 then 0
  else if i = 2 then 0
  else mem i

/-- C7: after `alloc_code_object` initializes a code object of at least 4
words, the header word encodes `total_words` shifted into the size field and
tagged with the code-header widetag, `boxed_size` and `debug_info` are zero,
the trailing simple-fun count word at index `total_words - 1` is zero, and
every other word is untouched. -/
theorem C7_code_object_init (hdrShift widetag : Nat) (mem : Nat → Nat)
    (total_words : Nat) (h4 : 4 ≤ total_words) :
    alloc_code_object_init hdrShift widetag mem total_words 0 =
      ((total_words <<< hdrShift) ||| widetag) % UWORD_MOD ∧
    alloc_code_object_init hdrShift widetag mem total_words 1 = 0 ∧
    alloc_code_object_init hdrShift widetag mem total_words 2 = 0 ∧
    alloc_code_object_init hdrShift widetag mem total_words (total_words - 1) = 0 ∧
    (∀ i, 2 < i → i < total_words - 1 →
      alloc_code_object_init hdrShift widetag mem total_words i = mem i) := by
  unfold alloc_code_object_init
  refine ⟨?_, ?_, ?_, ?_, ?_⟩
  · rw [if_neg (by omega), if_pos rfl]
  · rw [if_neg (by omega), if_neg (by omega), if_pos rfl]
  · rw [if_neg (by omega), if_neg (by omega), if_neg (by omega), if_pos rfl]
  · rw [if_pos rfl]
  · intro i h1 h2
    rw [if_neg (by omega), if_neg (by omega), if_neg (by omega),
      if_neg (by omega)]

/-- C7 witness: a 4-word code object with `CODE_HEADER_SIZE_SHIFT = 32` and
an arbitrary widetag byte, over memory filled with the garbage value 7. -/
theorem C7_code_object_init_witness :
    alloc_code_object_init 32 45 (fun _ => 7) 4 0 =
      ((4 <<< 32) ||| 45) % UWORD_MOD ∧
    alloc_code_object_init 32 45 (fun _ => 7) 4 3 = 0 :=
  ⟨(C7_code_object_init 32 45 (fun _ => 7) 4 (by decide)).1,
   (C7_code_object_init 32 45 (fun _ => 7) 4 (by decide)).2.2.2.1⟩

/-! ## The allocation profiler -/

/-- The diagnostic messages the profiler prints; only their identity matters
for the claims. -/
inductive LogMsg where
  | usingBuffer : LogMsg
  | threadCount : LogMsg
  | unsafelyChanged : LogMsg
  | alreadyStarted : LogMsg
  | noMetadata : LogMsg
  | notStarted : LogMsg
deriving DecidableEq

/-- The profiler's global state together with the thread registry's
per-thread `profile_data` slots (alloc.c globals plus `struct thread`).
`alloc_profile_data` is `some len` when the metadata simple-vector is
present, `len` being its length; `profile_data` holds each live thread's
slot value (0 = null); `allocated` tracks the buffer addresses currently
held from `os_allocate`. -/
structure ProfilerState where
  alloc_profiling : Bool
  profile_buffer_size : Nat
  alloc_profile_buffer : Nat
  max_alloc_point_counters : Nat
  alloc_profile_data : Option Nat
  profile_data : List Nat
  allocated : List Nat
deriving DecidableEq

/-- `allocation_profiler_start` (alloc.c).  `fresh` is the address
`os_allocate` would return for a newly allocated buffer.  Returns the new
state and the messages printed.  When the computed size differs from the
previous one, the code allocates a new buffer, installs it into every
thread's slot, and then — because `old_buffer` is non-null — calls
`os_deallocate(alloc_profile_buffer, profile_buffer_size)`, i.e. it
deallocates the buffer it has just installed (modelled faithfully by
erasing `fresh` from `allocated`). -/
def allocation_profiler_start (s : ProfilerState) (fresh : Nat) :
    ProfilerState × List LogMsg :=
  match s.alloc_profiling, s.alloc_profile_data with
  | false, some len =>
    if N_WORD_BYTES * (len / 2) ≠ s.profile_buffer_size then
      let s2 : ProfilerState :=
        { s with
            max_alloc_point_counters := len / 2
            profile_buffer_size := N_WORD_BYTES * (len / 2)
            alloc_profile_buffer := fresh
            allocated := fresh :: s.allocated
            alloc_profiling := true
            profile_data := s.profile_data.map (fun _ => fresh) }
      if s.alloc_profile_buffer ≠ 0 then
        ({ s2 with allocated := s2.allocated.erase fresh },
         [LogMsg.usingBuffer, LogMsg.threadCount, LogMsg.unsafelyChanged])
      else
        (s2, [LogMsg.usingBuffer, LogMsg.threadCount])
    else
      ({ s with
          max_alloc_point_counters := len / 2
          alloc_profiling := true
          profile_data := s.profile_data.map (fun _ => s.alloc_profile_buffer) },
       [LogMsg.threadCount])
  | true, _ => (s, [LogMsg.alreadyStarted])
  | false, none => (s, [LogMsg.noMetadata])

/-- `allocation_profiler_stop` (alloc.c): clears the running flag and nulls
every live thread's slot; the counter buffer is not freed. -/
def allocation_profiler_stop (s : ProfilerState) : ProfilerState × List LogMsg :=
  if s.alloc_profiling then
    ({ s with
        alloc_profiling := false
        profile_data := s.profile_data.map (fun _ => 0) }, [])
  else
    (s, [LogMsg.notStarted])

/-- A cold profiler state: not running, no buffer allocated yet, metadata
vector of length `len` supplied, one null slot per live thread. -/
def profilerColdState (len : Nat) (threads : List Nat) : ProfilerState where
  alloc_profiling := false
  profile_buffer_size := 0
  alloc_profile_buffer := 0
  max_alloc_point_counters := 0
  alloc_profile_data := some len
  profile_data := threads
  allocated := []

/-- Starting from cold allocates buffer `a` and warns about nothing: the
previous buffer pointer is null, so no deallocation happens. -/
theorem allocation_profiler_start_cold (len a : Nat) (threads : List Nat)
    (hsize : N_WORD_BYTES * (len / 2) ≠ 0) :
    allocation_profiler_start (profilerColdState len threads) a =
      ({ alloc_profiling := true
         profile_buffer_size := N_WORD_BYTES * (len / 2)
         alloc_profile_buffer := a
         max_alloc_point_counters := len / 2
         alloc_profile_data := some len
         profile_data := threads.map (fun _ => a)
         allocated := [a] }, [LogMsg.usingBuffer, LogMsg.threadCount]) := by
  simp [allocation_profiler_start, profilerColdState, hsize]

/-- The profiler state after the first `start()` of the C8 round-trip. -/
def c8_started (len a : Nat) (threads : List Nat) : ProfilerState :=
  (allocation_profiler_start (profilerColdState len threads) a).1

/-- The profiler state after the subsequent `stop()`. -/
def c8_stopped (len a : Nat) (threads : List Nat) : ProfilerState :=
  (allocation_profiler_stop (c8_started len a threads)).1

/-- C8: `start()`, `stop()`, `start()` with a metadata vector of identical
size: the stop clears the running flag and nulls every thread's slot but
keeps the buffer allocated, and the second start logs no "unsafely changed"
warning and reinstalls the same buffer address into every thread's slot. -/
theorem C8_profiler_restart_reuses_buffer (len a a2 : Nat) (threads : List Nat)
    (hlen : 2 ≤ len) (ha : a ≠ 0) :
    (c8_started len a threads).alloc_profile_buffer = a ∧
    (c8_stopped len a threads).alloc_profiling = false ∧
    (c8_stopped len a threads).profile_data = threads.map (fun _ => 0) ∧
    (c8_stopped len a threads).allocated = (c8_started len a threads).allocated ∧
    a ∈ (c8_stopped len a threads).allocated ∧
    LogMsg.unsafelyChanged ∉
      (allocation_profiler_start (c8_stopped len a threads) a2).2 ∧
    (allocation_profiler_start (c8_stopped len a threads) a2).1.alloc_profile_buffer
      = a ∧
    (allocation_profiler_start (c8_stopped len a threads) a2).1.profile_data =
      threads.map (fun _ => a) ∧
    (allocation_profiler_start (c8_stopped len a threads) a2).1.allocated =
      (c8_started len a threads).allocated := by
  have hsize : N_WORD_BYTES * (len / 2) ≠ 0 := by
    simp only [N_WORD_BYTES]
    omega
  have hs1 : c8_started len a threads =
      { alloc_profiling := true
        profile_buffer_size := N_WORD_BYTES * (len / 2)
        alloc_profile_buffer := a
        max_alloc_point_counters := len / 2
        alloc_profile_data := some len
        profile_data := threads.map (fun _ => a)
        allocated := [a] } := by
    rw [c8_started, allocation_profiler_start_cold len a threads hsize]
  have hs2 : c8_stopped len a threads =
      { alloc_profiling := false
        profile_buffer_size := N_WORD_BYTES * (len / 2)
        alloc_profile_buffer := a
        max_alloc_point_counters := len / 2
        alloc_profile_data := some len
        profile_data := threads.map (fun _ => 0)
        allocated := [a] } := by
    rw [c8_stopped, hs1]
    simp [allocation_profiler_stop, List.map_map, Function.comp]
  have hs3 : allocation_profiler_start (c8_stopped len a threads) a2 =
      ({ alloc_profiling := true
         profile_buffer_size := N_WORD_BYTES * (len / 2)
         alloc_profile_buffer := a
         max_alloc_point_counters := len / 2
         alloc_profile_data := some len
         profile_data := threads.map (fun _ => a)
         allocated := [a] }, [LogMsg.threadCount]) := by
    rw [hs2]
    simp [allocation_profiler_start, List.map_map, Function.comp]
  rw [hs3, hs2, hs1]
  simp

/-- C8 witness: two threads, metadata length 6, buffer address 100. -/
theorem C8_profiler_restart_reuses_buffer_witness :
    (c8_started 6 100 [0, 0]).alloc_profile_buffer = 100 ∧
    (c8_stopped 6 100 [0, 0]).alloc_profiling = false ∧
    (c8_stopped 6 100 [0, 0]).profile_data = List.map (fun _ => 0) [0, 0] ∧
    (c8_stopped 6 100 [0, 0]).allocated = (c8_started 6 100 [0, 0]).allocated ∧
    100 ∈ (c8_stopped 6 100 [0, 0]).allocated ∧
    LogMsg.unsafelyChanged ∉
      (allocation_profiler_start (c8_stopped 6 100 [0, 0]) 200).2 ∧
    (allocation_profiler_start (c8_stopped 6 100 [0, 0]) 200).1.alloc_profile_buffer
      = 100 ∧
    (allocation_profiler_start (c8_stopped 6 100 [0, 0]) 200).1.profile_data =
      List.map (fun _ => 100) [0, 0] ∧
    (allocation_profiler_start (c8_stopped 6 100 [0, 0]) 200).1.allocated =
      (c8_started 6 100 [0, 0]).allocated :=
  C8_profiler_restart_reuses_buffer 6 100 200 [0, 0] (by decide) (by decide)

/-- C9, evaluating the code at the failing input: start with a metadata
vector of length 6 (buffer size 24, address 100), stop, replace the metadata
with a vector of length 10 (size 40), and start again with `os_allocate`
returning 200.  The code allocates buffer 200, installs it into every
thread's slot, and logs the unsafe-change warning — but then its
`os_deallocate(alloc_profile_buffer, profile_buffer_size)` releases 200, the
buffer it just installed, and leaves the previous buffer 100 allocated,
while every thread's slot and the global buffer pointer still hold 200. -/
theorem C9_resize_deallocates_new_buffer :
    (allocation_profiler_start
        { c8_stopped 6 100 [0, 0] with alloc_profile_data := some 10 }
        200).2 =
      [LogMsg.usingBuffer, LogMsg.threadCount, LogMsg.unsafelyChanged] ∧
    (allocation_profiler_start
        { c8_stopped 6 100 [0, 0] with alloc_profile_data := some 10 }
        200).1.alloc_profile_buffer = 200 ∧
    (allocation_profiler_start
        { c8_stopped 6 100 [0, 0] with alloc_profile_data := some 10 }
        200).1.profile_data = [200, 200] ∧
    200 ∉
      (allocation_profiler_start
        { c8_stopped 6 100 [0, 0] with alloc_profile_data := some 10 }
        200).1.allocated ∧
    100 ∈
      (allocation_profiler_start
        { c8_stopped 6 100 [0, 0] with alloc_profile_data := some 10 }
        200).1.allocated := by decide

end SBCL
